import Mathlib

/-!
Shallow embedding of the quiz-session logic of `programming_quiz_app`
(frontend/src/components/QuizPage.tsx), covering:

* the session store adapter (browser `sessionStorage` keyed by
  `quizPageSession_${userId}`): `getItem` / `setItem` / `removeItem`;
* the session reconciler evaluated once at mount (`savedSession`,
  `isFreshQuiz`, and the `useState` initializers);
* the quiz runner (`handleAnswer`, its advance `setTimeout`, the
  per-question reset effect on `currentIndex`);
* the persistence effect that mirrors the in-memory session into the store.

JavaScript idioms are modelled explicitly: `JSON.parse` of a malformed
string throwing (caught and mapped to `null`) becomes an `Option`-returning
parse over a `RawValue` that is either a well-formed record or opaque junk;
`a ?? b` becomes `Option.getD`; `Array.prototype.indexOf` (which returns -1
on a miss) is `jsIndexOf`; out-of-range array subscripts (`undefined`)
become `List.get?`.
-/

namespace QuizApp

/-- MCQ question shape (interface `QuizQuestion` in QuizPage.tsx). -/
structure QuizQuestion where
  title : String
  question : String
  options : List String
  correct_answer : String
deriving DecidableEq, Repr

/-- The JSON record written to `sessionStorage` by the persistence effect:
`{ sessionId, quiz, currentIndex, finished, totalXpEarned }`. -/
structure SessionRecord where
  sessionId : Nat
  quiz : List QuizQuestion
  currentIndex : Nat
  finished : Bool
  totalXpEarned : Nat
deriving DecidableEq, Repr

/-- A value held in the store: either a serialization of a well-formed
session record, or a string that fails to parse as JSON (`JSON.parse`
throws; QuizPage.tsx:420-426 catches and returns `null`). -/
inductive RawValue where
  | valid (r : SessionRecord)
  | malformed (raw : String)
deriving DecidableEq, Repr

/-- Browser `sessionStorage`, as an association list from keys to values. -/
abbrev Store := List (String × RawValue)

/-- Model of `sessionStorage.getItem(k)`; `none` models the `null` return. -/
def getItem (k : String) (st : Store) : Option RawValue :=
  (st.find? (fun e => e.1 = k)).map (fun e => e.2)

/-- Model of `sessionStorage.setItem(k, v)`: replaces any previous value under `k`. -/
def setItem (k : String) (v : RawValue) (st : Store) : Store :=
  (k, v) :: st.filter (fun e => ¬ e.1 = k)

/-- Model of `sessionStorage.removeItem(k)` (QuizPage.tsx:515). -/
def removeItem (k : String) (st : Store) : Store :=
  st.filter (fun e => ¬ e.1 = k)

/-- Model of `raw ? JSON.parse(raw) : null` under the `try/catch`: a malformed
value parses to `none`, never raising. -/
def parseSession : RawValue → Option SessionRecord
  | .valid r => some r
  | .malformed _ => none

/-- The `savedSession` IIFE (QuizPage.tsx:420-426): `null` when the user is
logged out (no key), the key is absent, or the stored value is malformed. -/
def loadSavedSession (key : Option String) (st : Store) : Option SessionRecord :=
  match key with
  | none => none
  | some k =>
    match getItem k st with
    | none => none
    | some raw => parseSession raw

/-- Shape of `location.state` as received by the quiz view: navigation may carry a
question list and/or a session id, or be absent entirely. -/
structure NavState where
  quizData : Option (List QuizQuestion)
  sessionId : Option Nat
deriving DecidableEq, Repr

/-- Accessor for `location.state?.quizData`. -/
def navQuizData (nav : Option NavState) : Option (List QuizQuestion) :=
  nav.bind (fun st => st.quizData)

/-- Accessor for `location.state?.sessionId`. -/
def navSessionId (nav : Option NavState) : Option Nat :=
  nav.bind (fun st => st.sessionId)

/-- Predicate `isFreshQuiz` (QuizPage.tsx:428-431):
`Boolean(location.state?.quizData?.length && (!savedSession ||
savedSession.sessionId !== location.state.sessionId))`.
A `0` length is falsy; comparing a stored number against an absent
(`undefined`) navigation id with `!==` is true, modelled by comparing
`some s.sessionId` with the optional navigation id. -/
def isFreshQuiz (nav : Option NavState) (saved : Option SessionRecord) : Bool :=
  match nav with
  | none => false
  | some st =>
    match st.quizData with
    | none => false
    | some qd =>
      decide (qd.length ≠ 0) &&
      (match saved with
       | none => true
       | some s => decide (some s.sessionId ≠ st.sessionId))

/-- Constant `XP_PER_CORRECT` (QuizPage.tsx:7). -/
def XP_PER_CORRECT : Nat := 10

/-- The feedback display interval passed to `setTimeout` (QuizPage.tsx:569). -/
def FEEDBACK_DELAY_MS : Nat := 2000

/-- The hardcoded four-entry letter list `["A", "B", "C", "D"]`
(QuizPage.tsx:544, 546, 730). -/
def letterTags : List String := ["A", "B", "C", "D"]

/-- Model of `Array.prototype.indexOf`: position of the first occurrence, `-1`
when absent. -/
def jsIndexOf : List String → String → Int
  | [], _ => -1
  | x :: xs, s =>
    if x = s then 0
    else
      let r := jsIndexOf xs s
      if r = -1 then -1 else r + 1

/-- The in-memory React state of `QuizPage` relevant to the claims.
`pendingAdvance` models whether the advance `setTimeout` scheduled by
`handleAnswer` is outstanding. -/
structure CompState where
  quiz : List QuizQuestion
  sessionId : Nat
  currentIndex : Nat
  finished : Bool
  totalXpEarned : Nat
  feedbackMessage : Option String
  showXpAnimation : Bool
  answered : Bool
  selectedAnswer : Option Nat
  correctAnswerIndex : Option Int
  pendingAdvance : Bool
deriving DecidableEq, Repr

/-- The `useState` initializers (QuizPage.tsx:433-465), evaluated once at
mount with `savedSession` and `isFreshQuiz` in scope. `now` stands for
`Date.now()`. Each `?? `-chain is translated with `Option.getD`; in the
fresh branch `location.state.quizData` is the (present, non-empty) list
behind `navQuizData`. -/
def initState (nav : Option NavState) (saved : Option SessionRecord) (now : Nat) :
    CompState :=
  let fresh := isFreshQuiz nav saved
  { quiz :=
      if fresh then (navQuizData nav).getD []
      else (saved.map SessionRecord.quiz).getD ((navQuizData nav).getD [])
  , sessionId :=
      if fresh then (navSessionId nav).getD now
      else (saved.map SessionRecord.sessionId).getD ((navSessionId nav).getD now)
  , currentIndex :=
      if fresh then 0 else (saved.map SessionRecord.currentIndex).getD 0
  , finished :=
      if fresh then false else (saved.map SessionRecord.finished).getD false
  , totalXpEarned :=
      if fresh then 0 else (saved.map SessionRecord.totalXpEarned).getD 0
  , feedbackMessage := none
  , showXpAnimation := false
  , answered := false
  , selectedAnswer := none
  , correctAnswerIndex := none
  , pendingAdvance := false }

/-- The record written by the persistence effect (QuizPage.tsx:469-475). -/
def encodeSession (s : CompState) : SessionRecord :=
  { sessionId := s.sessionId
  , quiz := s.quiz
  , currentIndex := s.currentIndex
  , finished := s.finished
  , totalXpEarned := s.totalXpEarned }

/-- The persistence `useEffect` (QuizPage.tsx:467-477): when the question
list is non-empty and a key exists (user logged in), mirror the session
state into the store; otherwise do nothing. -/
def persistEffect (key : Option String) (s : CompState) (st : Store) : Store :=
  match key with
  | none => st
  | some k =>
    if s.quiz.length ≠ 0 then setItem k (.valid (encodeSession s)) st else st

/-- Handler `handleAnswer` (QuizPage.tsx:541-570). The `answered` guard returns
early; `["A","B","C","D"][index]` is `letterTags.get? i` (`undefined`,
i.e. `none`, beyond index 3, and `undefined === correct_answer` is false);
`indexOf` is `jsIndexOf`. The closing `setTimeout` is recorded as
`pendingAdvance`. `currentQ` is `quiz[currentIndex]`; the option buttons
invoking this handler are only rendered when it exists. -/
def handleAnswer (s : CompState) (i : Nat) : CompState :=
  if s.answered then s
  else
    match s.quiz.get? s.currentIndex with
    | none => s
    | some q =>
      let isCorrect := letterTags.get? i = some q.correct_answer
      let correctIdx := jsIndexOf letterTags q.correct_answer
      let s' := { s with
        answered := true
        selectedAnswer := some i
        correctAnswerIndex := some correctIdx
        pendingAdvance := true }
      if isCorrect then
        { s' with
          showXpAnimation := true
          totalXpEarned := s'.totalXpEarned + XP_PER_CORRECT
          feedbackMessage := some "Correct!" }
      else
        { s' with
          feedbackMessage :=
            some ("Incorrect! The correct answer was " ++ q.correct_answer ++ ".") }

/-- The per-question reset `useEffect` on `[currentIndex]`
(QuizPage.tsx:479-484). -/
def resetForQuestion (s : CompState) : CompState :=
  { s with answered := false, selectedAnswer := none, correctAnswerIndex := none }

/-- The advance `setTimeout` callback (QuizPage.tsx:561-569), firing only
when one is outstanding; when `currentIndex` changes, the reset effect on
`[currentIndex]` follows. -/
def advanceTimeout (s : CompState) : CompState :=
  if s.pendingAdvance = false then s
  else
    let s' := { s with
      feedbackMessage := none
      showXpAnimation := false
      pendingAdvance := false }
    if s'.currentIndex + 1 < s'.quiz.length then
      resetForQuestion { s' with currentIndex := s'.currentIndex + 1 }
    else
      { s' with finished := true }

/-- A mounted `QuizPage`: its session key (`some` iff a user is logged
in), its React state, and the browser session store. -/
structure Component where
  key : Option String
  st : CompState
  store : Store
deriving DecidableEq, Repr

/-- Mounting the view: evaluate `savedSession` and the initializers once,
then run the persistence effect (React runs effects after the first
render). -/
def mount (key : Option String) (nav : Option NavState) (now : Nat)
    (store : Store) : Component :=
  let saved := loadSavedSession key store
  let s := initState nav saved now
  { key := key, st := s, store := persistEffect key s store }

/-- User-visible events of the quiz runner: selecting an option, the
advance timer firing, and quitting (`handleQuitQuiz`, also reached from
the completion screen's button). -/
inductive Event where
  | select (i : Nat)
  | advance
  | quit
deriving DecidableEq, Repr

/-- One event step. Option buttons exist only on the active-quiz screen
(the completion screen renders none), hence the `finished` guard on
`select`. `handleQuitQuiz` (QuizPage.tsx:514-517) removes the stored
record and navigates away, so no persistence effect re-runs after it. -/
def step (c : Component) : Event → Component
  | .select i =>
    if c.st.finished then c
    else
      let s := handleAnswer c.st i
      { c with st := s, store := persistEffect c.key s c.store }
  | .advance =>
    let s := advanceTimeout c.st
    { c with st := s, store := persistEffect c.key s c.store }
  | .quit =>
    { c with store :=
        match c.key with
        | some k => removeItem k c.store
        | none => c.store }

/-! ### Sample inputs used by witnesses and counterexamples -/

/-- A sample MCQ whose correct tag is `"C"`. -/
def sampleQ : QuizQuestion :=
  { title := "t", question := "q", options := ["o1", "o2", "o3", "o4"]
  , correct_answer := "C" }

/-- A sample stored session record, three questions in. -/
def sampleRec : SessionRecord :=
  { sessionId := 7, quiz := [sampleQ, sampleQ, sampleQ, sampleQ]
  , currentIndex := 3, finished := false, totalXpEarned := 20 }

/-- A sample navigation state carrying `sampleQ` and session id 7. -/
def sampleNav : NavState :=
  { quizData := some [sampleQ], sessionId := some 7 }

/-- The session key for user id 1 (`quizPageSession_${userId}`). -/
def sampleKey : String := "quizPageSession_1"

/-- A store holding `sampleRec` under `sampleKey`. -/
def sampleStore : Store := [(sampleKey, RawValue.valid sampleRec)]

/-- A freshly mounted one-question quiz for user 1 over an empty store. -/
def sampleMount : Component :=
  mount (some sampleKey) (some sampleNav) 99 []

/-- State of `sampleMount` after answering its only question (correctly, option
ordinal 2 = "C") and letting the advance timer fire: the completed state. -/
def completedRun : Component :=
  step (step sampleMount (Event.select 2)) Event.advance

/-! ### Store lemmas -/

theorem getItem_setItem_self (k : String) (v : RawValue) (st : Store) :
    getItem k (setItem k v st) = some v := by
  simp [getItem, setItem, List.find?]

theorem getItem_removeItem_self (k : String) (st : Store) :
    getItem k (removeItem k st) = none := by
  induction st with
  | nil => rfl
  | cons e st ih =>
    by_cases h : e.1 = k
    · simp [getItem, removeItem, h]
    · simp only [getItem, removeItem, List.filter_cons, h, decide_not] at ih ⊢
      simp [List.find?, h]

theorem removeItem_removeItem (k : String) (st : Store) :
    removeItem k (removeItem k st) = removeItem k st := by
  simp [removeItem, List.filter_filter]

/-! ### Runner characterization lemmas -/

theorem handleAnswer_correct (s : CompState) (i : Nat) (q : QuizQuestion)
    (hans : s.answered = false)
    (hq : s.quiz.get? s.currentIndex = some q)
    (hc : letterTags.get? i = some q.correct_answer) :
    handleAnswer s i = { s with
      answered := true
      selectedAnswer := some i
      correctAnswerIndex := some (jsIndexOf letterTags q.correct_answer)
      pendingAdvance := true
      showXpAnimation := true
      totalXpEarned := s.totalXpEarned + XP_PER_CORRECT
      feedbackMessage := some "Correct!" } := by
  simp only [handleAnswer, hans, hq, Bool.false_eq_true, if_false]
  rw [if_pos hc]

theorem handleAnswer_incorrect (s : CompState) (i : Nat) (q : QuizQuestion)
    (hans : s.answered = false)
    (hq : s.quiz.get? s.currentIndex = some q)
    (hc : ¬ letterTags.get? i = some q.correct_answer) :
    handleAnswer s i = { s with
      answered := true
      selectedAnswer := some i
      correctAnswerIndex := some (jsIndexOf letterTags q.correct_answer)
      pendingAdvance := true
      feedbackMessage :=
        some ("Incorrect! The correct answer was " ++ q.correct_answer ++ ".") } := by
  simp only [handleAnswer, hans, hq, Bool.false_eq_true, if_false]
  rw [if_neg hc]

theorem handleAnswer_quiz (s : CompState) (i : Nat) :
    (handleAnswer s i).quiz = s.quiz := by
  simp only [handleAnswer]
  split
  · rfl
  · split
    · rfl
    · split <;> rfl

theorem handleAnswer_currentIndex (s : CompState) (i : Nat) :
    (handleAnswer s i).currentIndex = s.currentIndex := by
  simp only [handleAnswer]
  split
  · rfl
  · split
    · rfl
    · split <;> rfl

theorem handleAnswer_finished (s : CompState) (i : Nat) :
    (handleAnswer s i).finished = s.finished := by
  simp only [handleAnswer]
  split
  · rfl
  · split
    · rfl
    · split <;> rfl

theorem advanceTimeout_quiz (s : CompState) :
    (advanceTimeout s).quiz = s.quiz := by
  simp only [advanceTimeout, resetForQuestion]
  split
  · rfl
  · split <;> rfl

theorem advanceTimeout_eq (s : CompState) (hp : s.pendingAdvance = true) :
    advanceTimeout s =
      (let s' := { s with
          feedbackMessage := none
          showXpAnimation := false
          pendingAdvance := false }
       if s.currentIndex + 1 < s.quiz.length then
        resetForQuestion { s' with currentIndex := s.currentIndex + 1 }
       else
        { s' with finished := true }) := by
  simp only [advanceTimeout, hp, Bool.true_eq_false, if_false]

/-- The incorrect-answer feedback string is never the correct-answer
feedback string, whatever the stored tag. -/
theorem incorrect_feedback_ne_correct (x : String) :
    ("Incorrect! The correct answer was " ++ x ++ "." : String) ≠ "Correct!" := by
  intro h
  have hlen := congrArg String.length h
  rw [String.length_append, String.length_append] at hlen
  have h1 : ("Incorrect! The correct answer was " : String).length = 34 := rfl
  have h2 : ("." : String).length = 1 := rfl
  have h3 : ("Correct!" : String).length = 8 := rfl
  rw [h1, h2, h3] at hlen
  omega

/-! ### Reconciler theorems -/

/-- C1: incoming navigation data with a non-empty question list whose
session id is absent from the store or differs from the stored one yields
a fresh session: questions from the navigation data, index 0, not
finished, zero accumulated XP. -/
theorem mount_fresh_initializes
    (key : Option String) (store : Store) (nav : NavState)
    (qd : List QuizQuestion) (sid now : Nat)
    (hqd : nav.quizData = some qd) (hne : qd ≠ [])
    (hsid : nav.sessionId = some sid)
    (hdiff : ∀ s, loadSavedSession key store = some s → s.sessionId ≠ sid) :
    (mount key (some nav) now store).st.quiz = qd ∧
    (mount key (some nav) now store).st.currentIndex = 0 ∧
    (mount key (some nav) now store).st.finished = false ∧
    (mount key (some nav) now store).st.totalXpEarned = 0 := by
  have hfresh : isFreshQuiz (some nav) (loadSavedSession key store) = true := by
    cases hload : loadSavedSession key store with
    | none => simp [isFreshQuiz, hqd, hne]
    | some s =>
      have hs := hdiff s hload
      simp [isFreshQuiz, hqd, hne, hsid, hs]
  simp [mount, initState, hfresh, navQuizData, hqd]

theorem mount_fresh_initializes_witness :
    (mount (some sampleKey) (some sampleNav) 99 []).st.quiz = [sampleQ] ∧
    (mount (some sampleKey) (some sampleNav) 99 []).st.currentIndex = 0 ∧
    (mount (some sampleKey) (some sampleNav) 99 []).st.finished = false ∧
    (mount (some sampleKey) (some sampleNav) 99 []).st.totalXpEarned = 0 :=
  mount_fresh_initializes (some sampleKey) [] sampleNav [sampleQ] 7 99
    rfl (by simp) rfl
    (by intro s h; simp [loadSavedSession, getItem, sampleKey] at h)

/-- C2: incoming navigation data whose session id equals the stored one
resumes the stored progress: stored index, finished flag and accumulated
XP win over the incoming data. -/
theorem mount_same_id_resumes
    (key : Option String) (store : Store) (nav : NavState) (now : Nat)
    (s : SessionRecord)
    (hload : loadSavedSession key store = some s)
    (hsid : nav.sessionId = some s.sessionId) :
    (mount key (some nav) now store).st.currentIndex = s.currentIndex ∧
    (mount key (some nav) now store).st.finished = s.finished ∧
    (mount key (some nav) now store).st.totalXpEarned = s.totalXpEarned := by
  have hfresh : isFreshQuiz (some nav) (loadSavedSession key store) = false := by
    rw [hload]
    cases hq : nav.quizData with
    | none => simp [isFreshQuiz, hq]
    | some qd => simp [isFreshQuiz, hq, hsid]
  rw [hload] at hfresh
  simp [mount, initState, hfresh, hload]

theorem mount_same_id_resumes_witness :
    (mount (some sampleKey) (some sampleNav) 99 sampleStore).st.currentIndex
      = sampleRec.currentIndex ∧
    (mount (some sampleKey) (some sampleNav) 99 sampleStore).st.finished
      = sampleRec.finished ∧
    (mount (some sampleKey) (some sampleNav) 99 sampleStore).st.totalXpEarned
      = sampleRec.totalXpEarned :=
  mount_same_id_resumes (some sampleKey) sampleStore sampleNav 99 sampleRec
    (by simp [loadSavedSession, getItem, sampleStore, List.find?, parseSession])
    rfl

/-- C3: with no incoming navigation data, the stored session is used
verbatim: question list, session id, index, finished flag and accumulated
XP all come from the stored record. -/
theorem mount_no_nav_resumes
    (key : Option String) (store : Store) (now : Nat) (s : SessionRecord)
    (hload : loadSavedSession key store = some s) :
    (mount key none now store).st.quiz = s.quiz ∧
    (mount key none now store).st.sessionId = s.sessionId ∧
    (mount key none now store).st.currentIndex = s.currentIndex ∧
    (mount key none now store).st.finished = s.finished ∧
    (mount key none now store).st.totalXpEarned = s.totalXpEarned := by
  simp [mount, initState, isFreshQuiz, hload]

theorem mount_no_nav_resumes_witness :
    (mount (some sampleKey) none 99 sampleStore).st.quiz = sampleRec.quiz ∧
    (mount (some sampleKey) none 99 sampleStore).st.sessionId
      = sampleRec.sessionId ∧
    (mount (some sampleKey) none 99 sampleStore).st.currentIndex
      = sampleRec.currentIndex ∧
    (mount (some sampleKey) none 99 sampleStore).st.finished
      = sampleRec.finished ∧
    (mount (some sampleKey) none 99 sampleStore).st.totalXpEarned
      = sampleRec.totalXpEarned :=
  mount_no_nav_resumes (some sampleKey) sampleStore 99 sampleRec
    (by simp [loadSavedSession, getItem, sampleStore, List.find?, parseSession])

/-- C7: a malformed stored value is treated exactly as an absent one — the
load returns nothing (no exception escapes the catch), and mounting over a
malformed record produces the same component state as mounting with the
record absent. -/
theorem malformed_record_is_absent
    (k : String) (store : Store) (junk : String) (nav : Option NavState)
    (now : Nat) :
    loadSavedSession (some k) (setItem k (.malformed junk) store) = none ∧
    (mount (some k) nav now (setItem k (.malformed junk) store)).st =
      (mount (some k) nav now (removeItem k store)).st := by
  have h1 : loadSavedSession (some k) (setItem k (.malformed junk) store) = none := by
    simp [loadSavedSession, getItem_setItem_self, parseSession]
  have h2 : loadSavedSession (some k) (removeItem k store) = none := by
    simp [loadSavedSession, getItem_removeItem_self]
  exact ⟨h1, by simp [mount, h1, h2]⟩

/-- C8: clearing the stored session is idempotent — a second quit leaves
the component (state and store) exactly as the first did, raising nothing. -/
theorem quit_clear_idempotent (c : Component) :
    step (step c Event.quit) Event.quit = step c Event.quit := by
  cases hk : c.key with
  | none => simp [step, hk]
  | some k => simp [step, hk, removeItem_removeItem]

/-! ### Quiz runner theorems -/

theorem advanceTimeout_finished_true (s : CompState) (h : s.finished = true) :
    (advanceTimeout s).finished = true := by
  simp only [advanceTimeout, resetForQuestion]
  split
  · exact h
  · split
    · exact h
    · rfl

/-- C5: answer evaluation maps the selected ordinal to a letter tag
(`["A","B","C","D"]`, `none` beyond ordinal 3) and judges it correct
exactly when that tag equals the question's stored correct-answer tag;
the highlighted ordinal is the tag's position in the four-letter list
(`-1` when absent, as `indexOf` returns); ordinals 4 and up are never
judged correct. -/
theorem answer_evaluation
    (s : CompState) (q : QuizQuestion) (i : Nat)
    (hans : s.answered = false)
    (hq : s.quiz.get? s.currentIndex = some q) :
    ((handleAnswer s i).feedbackMessage = some "Correct!"
        ↔ letterTags.get? i = some q.correct_answer) ∧
    (handleAnswer s i).correctAnswerIndex
        = some (jsIndexOf letterTags q.correct_answer) ∧
    (4 ≤ i → ¬ (handleAnswer s i).feedbackMessage = some "Correct!") := by
  by_cases hc : letterTags.get? i = some q.correct_answer
  · rw [handleAnswer_correct s i q hans hq hc]
    refine ⟨iff_of_true rfl hc, rfl, ?_⟩
    intro hi
    have hnone : letterTags.get? i = none := by
      apply List.get?_eq_none.mpr
      simpa [letterTags] using hi
    rw [hnone] at hc
    exact absurd hc (by simp)
  · rw [handleAnswer_incorrect s i q hans hq hc]
    have hne := incorrect_feedback_ne_correct q.correct_answer
    exact ⟨iff_of_false (fun h => hne (Option.some.inj h)) hc, rfl,
      fun _ h => hne (Option.some.inj h)⟩

theorem answer_evaluation_witness :
    ((handleAnswer sampleMount.st 2).feedbackMessage = some "Correct!"
        ↔ letterTags.get? 2 = some sampleQ.correct_answer) ∧
    (handleAnswer sampleMount.st 2).correctAnswerIndex
        = some (jsIndexOf letterTags sampleQ.correct_answer) ∧
    (4 ≤ 2 → ¬ (handleAnswer sampleMount.st 2).feedbackMessage
        = some "Correct!") :=
  answer_evaluation sampleMount.st sampleQ 2 rfl rfl

/-- C6: from the answering state, any selection enters feedback (message
set, the `FEEDBACK_DELAY_MS` advance timer pending, index unchanged);
when the timer fires the state becomes answering at index+1 when that is
in range and finished otherwise; a finished component is left untouched
by selections and stays finished under the timer. -/
theorem runner_transition_and_terminal
    (c : Component) (i : Nat) (q : QuizQuestion)
    (hfin : c.st.finished = false) (hans : c.st.answered = false)
    (hq : c.st.quiz.get? c.st.currentIndex = some q) :
    ((step c (Event.select i)).st.pendingAdvance = true ∧
      (step c (Event.select i)).st.feedbackMessage ≠ none ∧
      (step c (Event.select i)).st.currentIndex = c.st.currentIndex) ∧
    ((c.st.currentIndex + 1 < c.st.quiz.length →
        (step (step c (Event.select i)) Event.advance).st.currentIndex
            = c.st.currentIndex + 1 ∧
        (step (step c (Event.select i)) Event.advance).st.finished = false ∧
        (step (step c (Event.select i)) Event.advance).st.answered = false) ∧
      (¬ c.st.currentIndex + 1 < c.st.quiz.length →
        (step (step c (Event.select i)) Event.advance).st.finished = true ∧
        (step (step c (Event.select i)) Event.advance).st.currentIndex
            = c.st.currentIndex)) ∧
    (∀ d : Component, d.st.finished = true →
      (step d (Event.select i)).st = d.st ∧
      (step d Event.advance).st.finished = true) := by
  have hsel : (step c (Event.select i)).st = handleAnswer c.st i := by
    simp [step, hfin]
  have hpend : (handleAnswer c.st i).pendingAdvance = true := by
    by_cases hc : letterTags.get? i = some q.correct_answer
    · rw [handleAnswer_correct c.st i q hans hq hc]
    · rw [handleAnswer_incorrect c.st i q hans hq hc]
  have hfb : (handleAnswer c.st i).feedbackMessage ≠ none := by
    by_cases hc : letterTags.get? i = some q.correct_answer
    · rw [handleAnswer_correct c.st i q hans hq hc]; simp
    · rw [handleAnswer_incorrect c.st i q hans hq hc]; simp
  have hidx := handleAnswer_currentIndex c.st i
  have hqz := handleAnswer_quiz c.st i
  have hfin1 : (handleAnswer c.st i).finished = false := by
    rw [handleAnswer_finished]; exact hfin
  have hadv : (step (step c (Event.select i)) Event.advance).st
      = advanceTimeout (handleAnswer c.st i) := by
    simp [step, hfin]
  refine ⟨⟨by rw [hsel]; exact hpend, by rw [hsel]; exact hfb,
    by rw [hsel]; exact hidx⟩, ⟨?_, ?_⟩, ?_⟩
  · intro hlt
    rw [hadv, advanceTimeout_eq _ hpend]
    simp only [hidx, hqz, resetForQuestion]
    rw [if_pos hlt]
    exact ⟨rfl, hfin1, rfl⟩
  · intro hnlt
    rw [hadv, advanceTimeout_eq _ hpend]
    simp only [hidx, hqz]
    rw [if_neg hnlt]
    exact ⟨rfl, rfl⟩
  · intro d hd
    refine ⟨by simp [step, hd], ?_⟩
    have hst : (step d Event.advance).st = advanceTimeout d.st := by simp [step]
    rw [hst]
    exact advanceTimeout_finished_true d.st hd

theorem runner_transition_and_terminal_witness :
    (step sampleMount (Event.select 2)).st.pendingAdvance = true ∧
    (step (step sampleMount (Event.select 2)) Event.advance).st.finished
      = true :=
  ⟨(runner_transition_and_terminal sampleMount 2 sampleQ rfl rfl rfl).1.1,
   ((runner_transition_and_terminal sampleMount 2 sampleQ rfl rfl rfl).2.1.2
     (by decide)).1⟩

/-- C10: once `answered` is set, any further selection before the advance
timer fires is a no-op — the component state (selected ordinal, feedback,
XP, index) and the record under the session key are unchanged — and the
`answered` flag is reset (to `false`) by the timer only when the current
index changes. -/
theorem answered_selection_noop
    (c : Component) (i : Nat) (k : String)
    (hans : c.st.answered = true) (hk : c.key = some k)
    (hinv : getItem k c.store = some (RawValue.valid (encodeSession c.st))) :
    (step c (Event.select i)).st = c.st ∧
    getItem k (step c (Event.select i)).store = getItem k c.store ∧
    (∀ s : CompState, s.answered = true → (advanceTimeout s).answered = false →
      (advanceTimeout s).currentIndex = s.currentIndex + 1) := by
  have hguard : handleAnswer c.st i = c.st := by
    simp [handleAnswer, hans]
  refine ⟨?_, ?_, ?_⟩
  · by_cases hf : c.st.finished = true
    · simp [step, hf]
    · simp [step, hf, hguard]
  · by_cases hf : c.st.finished = true
    · simp [step, hf]
    · simp only [step, hf, Bool.false_eq_true, if_false, hguard, hk]
      by_cases hq : c.st.quiz.length ≠ 0
      · simp [persistEffect, hq, getItem_setItem_self, hinv]
      · simp [persistEffect, hq]
  · intro s hs hres
    cases hpd : s.pendingAdvance with
    | false =>
      have hid : advanceTimeout s = s := by
        simp [advanceTimeout, hpd]
      rw [hid, hs] at hres
      exact absurd hres (by simp)
    | true =>
      rw [advanceTimeout_eq s hpd] at hres ⊢
      by_cases hlt : s.currentIndex + 1 < s.quiz.length
      · rw [if_pos hlt]
        rfl
      · rw [if_neg hlt] at hres
        rw [hs] at hres
        exact absurd hres (by simp)

theorem answered_selection_noop_witness :
    (step (step sampleMount (Event.select 2)) (Event.select 0)).st
      = (step sampleMount (Event.select 2)).st :=
  (answered_selection_noop (step sampleMount (Event.select 2)) 0 sampleKey
    rfl rfl rfl).1

/-- C4: the persistence effect keeps the stored record identical to the
in-memory session after every runner state change: it is established at
mount and preserved by every non-quit event, for any logged-in user (key
present) and non-empty question list. -/
theorem state_change_persists
    (k : String) (nav : Option NavState) (now : Nat) (store0 : Store)
    (c : Component) (e : Event)
    (hk : c.key = some k) (hq : c.st.quiz ≠ []) (he : e ≠ Event.quit)
    (hinv : getItem k c.store = some (RawValue.valid (encodeSession c.st)))
    (hmq : (mount (some k) nav now store0).st.quiz ≠ []) :
    getItem k (mount (some k) nav now store0).store
      = some (RawValue.valid
          (encodeSession (mount (some k) nav now store0).st)) ∧
    getItem k (step c e).store
      = some (RawValue.valid (encodeSession (step c e).st)) := by
  constructor
  · have hlen : (initState nav (loadSavedSession (some k) store0) now).quiz.length
        ≠ 0 := by
      simp only [mount] at hmq
      simpa [List.length_eq_zero] using hmq
    simp only [mount]
    simp [persistEffect, hlen, getItem_setItem_self]
  · cases e with
    | quit => exact absurd rfl he
    | advance =>
      have hlen : (advanceTimeout c.st).quiz.length ≠ 0 := by
        rw [advanceTimeout_quiz]
        simpa [List.length_eq_zero] using hq
      simp [step, hk, persistEffect, hlen, getItem_setItem_self]
    | select i =>
      by_cases hf : c.st.finished = true
      · simpa [step, hf] using hinv
      · have hlen : (handleAnswer c.st i).quiz.length ≠ 0 := by
          rw [handleAnswer_quiz]
          simpa [List.length_eq_zero] using hq
        simp [step, hf, hk, persistEffect, hlen, getItem_setItem_self]

theorem state_change_persists_witness :
    getItem sampleKey (step sampleMount (Event.select 2)).store
      = some (RawValue.valid
          (encodeSession (step sampleMount (Event.select 2)).st)) :=
  (state_change_persists sampleKey (some sampleNav) 99 [] sampleMount
    (Event.select 2) rfl (by decide) (by decide) rfl (by decide)).2

/-- C9 counterexample: running the one-question `sampleMount` quiz to
completion leaves the record stored under the session key (re-written with
the finished flag set) — completion does not remove it. -/
theorem completion_retains_record :
    completedRun.st.finished = true ∧
    ¬ getItem sampleKey completedRun.store = none := by
  exact ⟨rfl, by decide⟩

/-- C9 amended: the stored record is removed on explicit quit — including
the completion screen's button, which invokes the same quit handler — but
completing the quiz itself re-persists the record with the finished flag
set rather than removing it. -/
theorem quit_destroys_record (c : Component) (k : String)
    (hk : c.key = some k) :
    getItem k (step c Event.quit).store = none := by
  simp [step, hk, getItem_removeItem_self]

theorem quit_destroys_record_witness :
    getItem sampleKey (step completedRun Event.quit).store = none :=
  quit_destroys_record completedRun sampleKey rfl

end QuizApp
